import Mathlib

/-!
Verification development for the Soccer xG Simulator.

This file gives a shallow embedding, in Lean 4, of the match-simulation
core found in `Soccer xG Sim/xg_simulator.py` (classes `Match` and
`MatchSimulator`, functions `calculate_expected_goals` and
`predict_score_probability`) together with the `Team` record from
`soccer_xg_sim_dlp.py`, and proves or refutes the specification claims
about that code.

Modelling conventions:
- Python floats are modelled by `ℚ` (exact rational arithmetic); the one
  place the source uses a transcendental function (`scipy.stats.poisson.pmf`)
  is modelled in `ℝ`.
- Python exceptions (`ZeroDivisionError` from `/`, `ValueError` from
  `np.random.poisson` on a negative mean and from `Match.get_result`)
  are modelled with `Except PyErr`.
- `np.random.poisson` draws are modelled by an oracle `rng : Nat → Nat × Nat`
  giving the (home, away) goal draw of each trial; theorems quantify over
  the oracle, so they hold for every possible sequence of random draws.
- Python `dict`s (which preserve insertion order) are modelled as
  association lists; `dict.get(k, 0) + 1` updates keep the key's position
  and append new keys at the end, exactly as in CPython.
-/

/-- The `Team` record from `soccer_xg_sim_dlp.py`, restricted to the fields
the simulation core reads: identity plus the four xG statistics. -/
structure TeamQ where
  name : String
  season : String
  avg_xg_for : ℚ
  avg_xg_against : ℚ
  xg_efficiency : ℚ
  defensive_efficiency : ℚ
  deriving DecidableEq, Repr

/-- `Team.get_display_name`: returns `f"{self.name} ({self.season})"`. -/
def get_display_name (t : TeamQ) : String :=
  t.name ++ " (" ++ t.season ++ ")"

/-- The module-level function `calculate_expected_goals(team, opponent,
is_home, neutral_venue)` from `xg_simulator.py`, translated step for step:
base xG, then the 1.2 home/away factor on attack, then the team's
efficiency, then division by the opponent's (venue-adjusted) defensive
efficiency. -/
def calculate_expected_goals (team opponent : TeamQ)
    ( is_home : Bool) (neutral_venue : Bool) : ℚ :=
  let base_xg := team.avg_xg_for
  let base_xg :=
    if neutral_venue then base_xg
    else if is_home then base_xg * (6 / 5) else base_xg / (6 / 5)
  let xg_with_efficiency := base_xg * team.xg_efficiency
  let opponent_defensive_factor := opponent.defensive_efficiency
  let opponent_defensive_factor :=
    if neutral_venue then opponent_defensive_factor
    else if is_home then opponent_defensive_factor / (6 / 5)
    else opponent_defensive_factor * (6 / 5)
  xg_with_efficiency / opponent_defensive_factor

/-- Concrete "Team A" of the spec's concrete scenario:
`avgXgFor=1.8, xgEfficiency=1.0, defensiveEfficiency=1.0`. -/
def teamA : TeamQ :=
  { name := "Team A", season := "2024-2025"
    avg_xg_for := 9 / 5, avg_xg_against := 1
    xg_efficiency := 1, defensive_efficiency := 1 }

/-- Concrete "Team B", statistically identical to `teamA`. -/
def teamB : TeamQ :=
  { name := "Team B", season := "2024-2025"
    avg_xg_for := 9 / 5, avg_xg_against := 1
    xg_efficiency := 1, defensive_efficiency := 1 }

/-- The Python exceptions the simulation core can raise: `ZeroDivisionError`
from a division whose divisor is zero, and `ValueError` (raised by
`np.random.poisson` on a negative mean, and by `Match.get_result` on an
unplayed match). -/
inductive PyErr where
  | zeroDivisionError : PyErr
  | valueError : PyErr
  deriving DecidableEq, Repr

/-- The mutable state of a `Match` object: the fields set by
`Match.__init__` (`variance_factor` is never read by the core and is
omitted). -/
structure MatchState where
  home_team : TeamQ
  away_team : TeamQ
  home_goals : Nat
  away_goals : Nat
  played : Bool
  neutral_venue : Bool
  home_advantage_factor : ℚ
  deriving DecidableEq, Repr

/-- `Match.__init__(home_team, away_team, neutral_venue)`: goals start at 0,
`played` starts `False`, and `home_advantage_factor` is `1.0` at a neutral
venue and `1.2` otherwise. -/
def Match.init (home_team away_team : TeamQ) (neutral_venue : Bool) : MatchState :=
  { home_team := home_team, away_team := away_team
    home_goals := 0, away_goals := 0
    played := false, neutral_venue := neutral_venue
    home_advantage_factor := if neutral_venue then 1 else 6 / 5 }

/-- `Match.simulate`, home side, steps 1-3: the home team's base xG times
the home-advantage factor times the home team's attacking efficiency. -/
def simulate_home_xg_with_efficiency (m : MatchState) : ℚ :=
  let base_home_xg := m.home_team.avg_xg_for
  let home_xg_with_advantage := base_home_xg * m.home_advantage_factor
  home_xg_with_advantage * m.home_team.xg_efficiency

/-- `Match.simulate`, home side, step 4: the away team's defensive
efficiency, multiplied by `1 / home_advantage_factor` when the venue is not
neutral. -/
def simulate_away_defensive_factor (m : MatchState) : ℚ :=
  if m.neutral_venue then m.away_team.defensive_efficiency
  else m.away_team.defensive_efficiency * (1 / m.home_advantage_factor)

/-- The expected home goals computed inline by `Match.simulate`. -/
def simulate_expected_home_goals (m : MatchState) : ℚ :=
  simulate_home_xg_with_efficiency m / simulate_away_defensive_factor m

/-- `Match.simulate`, away side, steps 1-3: the away team's base xG, divided
by the home-advantage factor when the venue is not neutral, times the away
team's attacking efficiency. -/
def simulate_away_xg_with_efficiency (m : MatchState) : ℚ :=
  let base_away_xg := m.away_team.avg_xg_for
  let away_xg_with_disadvantage :=
    if m.neutral_venue then base_away_xg else base_away_xg / m.home_advantage_factor
  away_xg_with_disadvantage * m.away_team.xg_efficiency

/-- `Match.simulate`, away side, step 4: the home team's defensive
efficiency, multiplied by the home-advantage factor when the venue is not
neutral. -/
def simulate_home_defensive_factor (m : MatchState) : ℚ :=
  if m.neutral_venue then m.home_team.defensive_efficiency
  else m.home_team.defensive_efficiency * m.home_advantage_factor

/-- The expected away goals computed inline by `Match.simulate`. -/
def simulate_expected_away_goals (m : MatchState) : ℚ :=
  simulate_away_xg_with_efficiency m / simulate_home_defensive_factor m

/-- `Match.simulate(self)`, with the two `np.random.poisson` draws supplied
by the oracle value `draw`.  The error cases mirror the Python evaluation
order: the division producing `expected_home_goals` raises
`ZeroDivisionError` when the away defensive factor is zero, then the
division producing `expected_away_goals`, then `np.random.poisson` raises
`ValueError` on a negative home mean, then on a negative away mean.  On
success the goals are stored and `played` is set. -/
def Match.simulate (m : MatchState) (draw : Nat × Nat) : Except PyErr MatchState :=
  if simulate_away_defensive_factor m = 0 then Except.error PyErr.zeroDivisionError
  else if simulate_home_defensive_factor m = 0 then Except.error PyErr.zeroDivisionError
  else if simulate_expected_home_goals m < 0 then Except.error PyErr.valueError
  else if simulate_expected_away_goals m < 0 then Except.error PyErr.valueError
  else Except.ok { m with home_goals := draw.1, away_goals := draw.2, played := true }

/-- The dictionary returned by `Match.get_result`.  The Python score-line
string `f"{home_goals}-{away_goals}"` is modelled by the same decimal
string. -/
structure MatchResult where
  home_team : String
  away_team : String
  home_goals : Nat
  away_goals : Nat
  result : String
  score_line : String
  deriving DecidableEq, Repr

/-- `Match.get_result(self)`: raises `ValueError` when the match has not
been played, otherwise returns the result dictionary with the outcome
classified as `'Home Win'` / `'Away Win'` / `'Draw'`. -/
def Match.get_result (m : MatchState) : Except PyErr MatchResult :=
  if m.played = false then Except.error PyErr.valueError
  else Except.ok
    { home_team := get_display_name m.home_team
      away_team := get_display_name m.away_team
      home_goals := m.home_goals
      away_goals := m.away_goals
      result :=
        if m.home_goals > m.away_goals then "Home Win"
        else if m.away_goals > m.home_goals then "Away Win"
        else "Draw"
      score_line := toString m.home_goals ++ "-" ++ toString m.away_goals }

/-- The CPython semantics of `d[k] = d.get(k, 0) + 1` on an
insertion-ordered dictionary modelled as an association list: an existing
key keeps its position and gets its count incremented; a new key is
appended at the end with count 1. -/
def bump {α : Type} [DecidableEq α] : List (α × Nat) → α → List (α × Nat)
  | [], k => [(k, 1)]
  | (k', v) :: rest, k =>
    if k' = k then (k', v + 1) :: rest else (k', v) :: bump rest k

/-- The counters of `results` that `MatchSimulator.run_simulations` updates
inside its trial loop. -/
structure LoopState where
  home_wins : Nat
  away_wins : Nat
  draws : Nat
  home_goals : Nat
  away_goals : Nat
  score_counts : List (String × Nat)
  home_goal_counts : List (Nat × Nat)
  away_goal_counts : List (Nat × Nat)
  deriving DecidableEq, Repr

/-- The initial `results` counters set up before the loop of
`run_simulations`: every counter 0, every mapping empty. -/
def initState : LoopState :=
  { home_wins := 0, away_wins := 0, draws := 0
    home_goals := 0, away_goals := 0
    score_counts := [], home_goal_counts := [], away_goal_counts := [] }

/-- The body of the trial loop of `run_simulations`, acting on the counters
with one match result: branch on `match_result['result']` to bump the
win/draw counters, add the goals to the running sums, and bump the three
count dictionaries. -/
def trialStep (s : LoopState) (r : MatchResult) : LoopState :=
  let s :=
    if r.result = "Home Win" then { s with home_wins := s.home_wins + 1 }
    else if r.result = "Away Win" then { s with away_wins := s.away_wins + 1 }
    else { s with draws := s.draws + 1 }
  let s := { s with home_goals := s.home_goals + r.home_goals
                    away_goals := s.away_goals + r.away_goals }
  let s := { s with score_counts := bump s.score_counts r.score_line }
  { s with home_goal_counts := bump s.home_goal_counts r.home_goals
           away_goal_counts := bump s.away_goal_counts r.away_goals }

/-- The trial loop of `run_simulations`: for each trial index, construct a
fresh `Match`, call `simulate` (which can raise) and `get_result`, and fold
the result into the counters.  An exception aborts the whole call, exactly
as an uncaught Python exception would. -/
def runTrials (home_team away_team : TeamQ) (neutral_venue : Bool)
    (rng : Nat → Nat × Nat) : List Nat → LoopState → Except PyErr LoopState
  | [], s => Except.ok s
  | i :: rest, s =>
    match Match.simulate (Match.init home_team away_team neutral_venue) (rng i) with
    | Except.error e => Except.error e
    | Except.ok m =>
      match Match.get_result m with
      | Except.error e => Except.error e
      | Except.ok r => runTrials home_team away_team neutral_venue rng rest (trialStep s r)

/-- One entry of `most_common_scores`: the dict
`{'score': k, 'count': v, 'prob': v / num_simulations}`. -/
abbrev ScoreEntry : Type := String × Nat × ℚ

/-- Insertion of one entry into a list already sorted by descending count,
placing the new entry before the first entry of strictly smaller count and
after entries of greater-or-equal count.  Since the new entry comes earlier
in the original list than the sorted tail it is inserted into, putting it
before entries of equal count is exactly the stability guarantee of
Python's `sorted`. -/
def insort (x : ScoreEntry) : List ScoreEntry → List ScoreEntry
  | [] => [x]
  | y :: ys => if y.2.1 ≤ x.2.1 then x :: y :: ys else y :: insort x ys

/-- The Python `sorted(entries, key=lambda x: x['count'], reverse=True)`:
the unique stable sort by descending count, realized as an insertion
sort. -/
def sortByCountDesc : List ScoreEntry → List ScoreEntry
  | [] => []
  | x :: xs => insort x (sortByCountDesc xs)

/-- The `results` dictionary returned by `run_simulations`, with its
post-loop derived fields. -/
structure SimResults where
  home_team : String
  away_team : String
  venue_type : String
  num_simulations : Int
  home_wins : Nat
  away_wins : Nat
  draws : Nat
  home_goals : Nat
  away_goals : Nat
  score_counts : List (String × Nat)
  home_goal_counts : List (Nat × Nat)
  away_goal_counts : List (Nat × Nat)
  avg_home_goals : ℚ
  avg_away_goals : ℚ
  home_win_prob : ℚ
  away_win_prob : ℚ
  draw_prob : ℚ
  most_common_scores : List ScoreEntry
  deriving DecidableEq, Repr

/-- The post-loop section of `run_simulations`: averages and probabilities
obtained by dividing by `num_simulations`, and the top-10 list of the
scoreline counts sorted by descending count (Python's `sorted` is stable,
so ties keep insertion order). -/
def postProcess (home_team away_team : TeamQ) (neutral_venue : Bool)
    (num_simulations : Int) (s : LoopState) : SimResults :=
  { home_team := get_display_name home_team
    away_team := get_display_name away_team
    venue_type := if neutral_venue then "Neutral Venue" else "Home/Away"
    num_simulations := num_simulations
    home_wins := s.home_wins, away_wins := s.away_wins, draws := s.draws
    home_goals := s.home_goals, away_goals := s.away_goals
    score_counts := s.score_counts
    home_goal_counts := s.home_goal_counts
    away_goal_counts := s.away_goal_counts
    avg_home_goals := (s.home_goals : ℚ) / (num_simulations : ℚ)
    avg_away_goals := (s.away_goals : ℚ) / (num_simulations : ℚ)
    home_win_prob := (s.home_wins : ℚ) / (num_simulations : ℚ)
    away_win_prob := (s.away_wins : ℚ) / (num_simulations : ℚ)
    draw_prob := (s.draws : ℚ) / (num_simulations : ℚ)
    most_common_scores :=
      (sortByCountDesc (s.score_counts.map
        (fun kv => (kv.1, kv.2, (kv.2 : ℚ) / (num_simulations : ℚ))))).take 10 }

/-- `MatchSimulator.run_simulations(home_team, away_team, num_simulations,
neutral_venue)`.  The function performs no input validation: it runs the
loop over `range(num_simulations)` (empty when `num_simulations ≤ 0`), and
afterwards the very first average, `results['home_goals'] /
num_simulations`, raises `ZeroDivisionError` when `num_simulations == 0`.
Each trial's two Poisson draws come from the oracle `rng` applied to the
trial index. -/
def run_simulations (home_team away_team : TeamQ) (num_simulations : Int)
    (neutral_venue : Bool) (rng : Nat → Nat × Nat) : Except PyErr SimResults :=
  match runTrials home_team away_team neutral_venue rng
      (List.range num_simulations.toNat) initState with
  | Except.error e => Except.error e
  | Except.ok s =>
    if num_simulations = 0 then Except.error PyErr.zeroDivisionError
    else Except.ok (postProcess home_team away_team neutral_venue num_simulations s)

/-- `scipy.stats.poisson.pmf(k, mu)` for an integer argument `k`: zero
outside the support (scipy's discrete distributions return probability 0
for points outside the support rather than raising), and
`exp(-mu) * mu^k / k!` on the support. -/
noncomputable def poisson_pmf (k : Int) (mu : ℚ) : ℝ :=
  if k < 0 then 0
  else Real.exp (-(mu : ℝ)) * (mu : ℝ) ^ k.toNat / (Nat.factorial k.toNat : ℝ)

/-- `predict_score_probability(home_team, away_team, home_goals, away_goals,
neutral_venue)`: the product of the two independent Poisson pmf values at
the two teams' expected-goal rates. -/
noncomputable def predict_score_probability (home_team away_team : TeamQ)
    (home_goals away_goals : Int) (neutral_venue : Bool) : ℝ :=
  let home_xg := calculate_expected_goals home_team away_team true neutral_venue
  let away_xg := calculate_expected_goals away_team home_team false neutral_venue
  let home_prob := poisson_pmf home_goals home_xg
  let away_prob := poisson_pmf away_goals away_xg
  home_prob * away_prob

/-- The result dictionary produced for a simulated match with goal draw
`g`, as `Match.get_result` returns it after a successful
`Match.simulate`. -/
def mkResult (home away : TeamQ) (g : Nat × Nat) : MatchResult :=
  { home_team := get_display_name home
    away_team := get_display_name away
    home_goals := g.1
    away_goals := g.2
    result :=
      if g.1 > g.2 then "Home Win"
      else if g.2 > g.1 then "Away Win"
      else "Draw"
    score_line := toString g.1 ++ "-" ++ toString g.2 }

theorem adf_init_pos (home away : TeamQ) (nv : Bool)
    (h6 : 0 < away.defensive_efficiency) :
    0 < simulate_away_defensive_factor (Match.init home away nv) := by
  cases nv with
  | false =>
    have he : simulate_away_defensive_factor (Match.init home away false) =
        away.defensive_efficiency * (5 / 6) := by
      norm_num [simulate_away_defensive_factor, Match.init]
    rw [he]
    exact mul_pos h6 (by norm_num)
  | true =>
    have he : simulate_away_defensive_factor (Match.init home away true) =
        away.defensive_efficiency := by
      norm_num [simulate_away_defensive_factor, Match.init]
    rw [he]
    exact h6

theorem hdf_init_pos (home away : TeamQ) (nv : Bool)
    (h3 : 0 < home.defensive_efficiency) :
    0 < simulate_home_defensive_factor (Match.init home away nv) := by
  cases nv with
  | false =>
    have he : simulate_home_defensive_factor (Match.init home away false) =
        home.defensive_efficiency * (6 / 5) := by
      norm_num [simulate_home_defensive_factor, Match.init]
    rw [he]
    exact mul_pos h3 (by norm_num)
  | true =>
    have he : simulate_home_defensive_factor (Match.init home away true) =
        home.defensive_efficiency := by
      norm_num [simulate_home_defensive_factor, Match.init]
    rw [he]
    exact h3

theorem hxe_init_nonneg (home away : TeamQ) (nv : Bool)
    (h1 : 0 ≤ home.avg_xg_for) (h2 : 0 ≤ home.xg_efficiency) :
    0 ≤ simulate_home_xg_with_efficiency (Match.init home away nv) := by
  cases nv with
  | false =>
    have he : simulate_home_xg_with_efficiency (Match.init home away false) =
        home.avg_xg_for * (6 / 5) * home.xg_efficiency := by
      norm_num [simulate_home_xg_with_efficiency, Match.init]
    rw [he]
    exact mul_nonneg (mul_nonneg h1 (by norm_num)) h2
  | true =>
    have he : simulate_home_xg_with_efficiency (Match.init home away true) =
        home.avg_xg_for * home.xg_efficiency := by
      norm_num [simulate_home_xg_with_efficiency, Match.init]
    rw [he]
    exact mul_nonneg h1 h2

theorem axe_init_nonneg (home away : TeamQ) (nv : Bool)
    (h4 : 0 ≤ away.avg_xg_for) (h5 : 0 ≤ away.xg_efficiency) :
    0 ≤ simulate_away_xg_with_efficiency (Match.init home away nv) := by
  cases nv with
  | false =>
    have he : simulate_away_xg_with_efficiency (Match.init home away false) =
        away.avg_xg_for / (6 / 5) * away.xg_efficiency := by
      norm_num [simulate_away_xg_with_efficiency, Match.init]
    rw [he]
    exact mul_nonneg (div_nonneg h4 (by norm_num)) h5
  | true =>
    have he : simulate_away_xg_with_efficiency (Match.init home away true) =
        away.avg_xg_for * away.xg_efficiency := by
      norm_num [simulate_away_xg_with_efficiency, Match.init]
    rw [he]
    exact mul_nonneg h4 h5

theorem simulate_init_ok (home away : TeamQ) (nv : Bool) (g : Nat × Nat)
    (h1 : 0 ≤ home.avg_xg_for) (h2 : 0 ≤ home.xg_efficiency)
    (h3 : 0 < home.defensive_efficiency)
    (h4 : 0 ≤ away.avg_xg_for) (h5 : 0 ≤ away.xg_efficiency)
    (h6 : 0 < away.defensive_efficiency) :
    Match.simulate (Match.init home away nv) g =
      Except.ok { Match.init home away nv with
                  home_goals := g.1, away_goals := g.2, played := true } := by
  have hadf := adf_init_pos home away nv h6
  have hhdf := hdf_init_pos home away nv h3
  have hehg : 0 ≤ simulate_expected_home_goals (Match.init home away nv) :=
    div_nonneg (hxe_init_nonneg home away nv h1 h2) hadf.le
  have heag : 0 ≤ simulate_expected_away_goals (Match.init home away nv) :=
    div_nonneg (axe_init_nonneg home away nv h4 h5) hhdf.le
  unfold Match.simulate
  rw [if_neg (ne_of_gt hadf), if_neg (ne_of_gt hhdf),
    if_neg (not_lt.mpr hehg), if_neg (not_lt.mpr heag)]

theorem get_result_simulated (home away : TeamQ) (nv : Bool) (g : Nat × Nat) :
    Match.get_result { Match.init home away nv with
        home_goals := g.1, away_goals := g.2, played := true } =
      Except.ok (mkResult home away g) := by
  simp [Match.get_result, Match.init, mkResult]

theorem runTrials_ok (home away : TeamQ) (nv : Bool) (rng : Nat → Nat × Nat)
    (h1 : 0 ≤ home.avg_xg_for) (h2 : 0 ≤ home.xg_efficiency)
    (h3 : 0 < home.defensive_efficiency)
    (h4 : 0 ≤ away.avg_xg_for) (h5 : 0 ≤ away.xg_efficiency)
    (h6 : 0 < away.defensive_efficiency) :
    ∀ (l : List Nat) (s : LoopState),
      runTrials home away nv rng l s =
        Except.ok (l.foldl (fun st i => trialStep st (mkResult home away (rng i))) s) := by
  intro l
  induction l with
  | nil => intro s; rfl
  | cons i rest ih =>
    intro s
    rw [runTrials, simulate_init_ok home away nv (rng i) h1 h2 h3 h4 h5 h6]
    exact ih (trialStep s (mkResult home away (rng i)))

/-- The sum of the values of an insertion-ordered count dictionary. -/
def sumVals {α : Type} (m : List (α × Nat)) : Nat :=
  (m.map (fun kv => kv.2)).sum

theorem sumVals_bump {α : Type} [DecidableEq α] (m : List (α × Nat)) (k : α) :
    sumVals (bump m k) = sumVals m + 1 := by
  induction m with
  | nil => simp [bump, sumVals]
  | cons kv rest ih =>
    rcases kv with ⟨k', v⟩
    by_cases h : k' = k <;> simp [bump, h, sumVals] at ih ⊢ <;> omega

/-- The total number of classified outcomes held in the counters. -/
def wdl (s : LoopState) : Nat :=
  s.home_wins + s.away_wins + s.draws

theorem trialStep_wdl (s : LoopState) (r : MatchResult) :
    wdl (trialStep s r) = wdl s + 1 := by
  unfold trialStep wdl
  by_cases hh : r.result = "Home Win" <;> by_cases ha : r.result = "Away Win" <;>
    simp [hh, ha] <;> omega

theorem trialStep_score_counts (s : LoopState) (r : MatchResult) :
    sumVals (trialStep s r).score_counts = sumVals s.score_counts + 1 := by
  unfold trialStep
  by_cases hh : r.result = "Home Win" <;> by_cases ha : r.result = "Away Win" <;>
    simp [hh, ha, sumVals_bump]

theorem trialStep_home_goal_counts (s : LoopState) (r : MatchResult) :
    sumVals (trialStep s r).home_goal_counts = sumVals s.home_goal_counts + 1 := by
  unfold trialStep
  by_cases hh : r.result = "Home Win" <;> by_cases ha : r.result = "Away Win" <;>
    simp [hh, ha, sumVals_bump]

theorem trialStep_away_goal_counts (s : LoopState) (r : MatchResult) :
    sumVals (trialStep s r).away_goal_counts = sumVals s.away_goal_counts + 1 := by
  unfold trialStep
  by_cases hh : r.result = "Home Win" <;> by_cases ha : r.result = "Away Win" <;>
    simp [hh, ha, sumVals_bump]

theorem foldl_trialStep_count (mu : LoopState → Nat)
    (hmu : ∀ s r, mu (trialStep s r) = mu s + 1) (f : Nat → MatchResult) :
    ∀ (l : List Nat) (s : LoopState),
      mu (l.foldl (fun st i => trialStep st (f i)) s) = mu s + l.length := by
  intro l
  induction l with
  | nil => intro s; simp
  | cons i rest ih =>
    intro s
    rw [List.foldl_cons, ih (trialStep s (f i)), hmu]
    simp
    omega

/-- The descending-count order on score entries. -/
def keyGe (u v : ScoreEntry) : Prop := v.2.1 ≤ u.2.1

theorem insort_perm (x : ScoreEntry) (l : List ScoreEntry) :
    List.Perm (insort x l) (x :: l) := by
  induction l with
  | nil => simp [insort]
  | cons y ys ih =>
    unfold insort
    split
    · exact List.Perm.refl _
    · exact (List.Perm.cons y ih).trans (List.Perm.swap x y ys)

theorem sortByCountDesc_perm (l : List ScoreEntry) :
    List.Perm (sortByCountDesc l) l := by
  induction l with
  | nil => simp [sortByCountDesc]
  | cons x xs ih =>
    unfold sortByCountDesc
    exact (insort_perm x (sortByCountDesc xs)).trans (List.Perm.cons x ih)

theorem insort_pairwise (x : ScoreEntry) (l : List ScoreEntry)
    (h : List.Pairwise keyGe l) : List.Pairwise keyGe (insort x l) := by
  induction l with
  | nil => simp [insort, List.pairwise_cons]
  | cons y ys ih =>
    rw [List.pairwise_cons] at h
    unfold insort
    split
    · rename_i hc
      rw [List.pairwise_cons]
      refine ⟨?_, List.pairwise_cons.mpr h⟩
      intro z hz
      rcases List.mem_cons.mp hz with hz | hz
      · subst hz; exact hc
      · exact le_trans (h.1 z hz) hc
    · rename_i hc
      rw [List.pairwise_cons]
      refine ⟨?_, ih h.2⟩
      intro z hz
      rcases List.mem_cons.mp ((insort_perm x ys).mem_iff.mp hz) with hz | hz
      · subst hz; exact le_of_not_le hc
      · exact h.1 z hz

theorem sortByCountDesc_pairwise (l : List ScoreEntry) :
    List.Pairwise keyGe (sortByCountDesc l) := by
  induction l with
  | nil => simp [sortByCountDesc]
  | cons x xs ih => exact insort_pairwise x (sortByCountDesc xs) ih

theorem filter_insort (c : Nat) (x : ScoreEntry) (l : List ScoreEntry) :
    (insort x l).filter (fun y => y.2.1 == c) =
      (x :: l).filter (fun y => y.2.1 == c) := by
  induction l with
  | nil => simp [insort]
  | cons y ys ih =>
    unfold insort
    split
    · rfl
    · rename_i hc
      have hlt : x.2.1 < y.2.1 := lt_of_not_le hc
      by_cases hy : y.2.1 = c
      · have hx : ¬ x.2.1 = c := by omega
        simp only [List.filter_cons, ih]
        simp [hx, hy]
      · simp only [List.filter_cons, ih]
        by_cases hx : x.2.1 = c <;> simp [hx, hy]

theorem filter_sortByCountDesc (c : Nat) (l : List ScoreEntry) :
    (sortByCountDesc l).filter (fun y => y.2.1 == c) =
      l.filter (fun y => y.2.1 == c) := by
  induction l with
  | nil => simp [sortByCountDesc]
  | cons x xs ih =>
    unfold sortByCountDesc
    rw [filter_insort c x (sortByCountDesc xs)]
    simp only [List.filter_cons, ih]

/-- The final counters of a run over the draws `rng 0, …, rng (n-1)`. -/
def finalState (home away : TeamQ) (rng : Nat → Nat × Nat) (n : Nat) : LoopState :=
  (List.range n).foldl (fun st i => trialStep st (mkResult home away (rng i))) initState

theorem run_simulations_ok_of_valid (home away : TeamQ) (nv : Bool)
    (rng : Nat → Nat × Nat) (N : Int) (hN : N ≠ 0)
    (h1 : 0 ≤ home.avg_xg_for) (h2 : 0 ≤ home.xg_efficiency)
    (h3 : 0 < home.defensive_efficiency)
    (h4 : 0 ≤ away.avg_xg_for) (h5 : 0 ≤ away.xg_efficiency)
    (h6 : 0 < away.defensive_efficiency) :
    run_simulations home away N nv rng =
      Except.ok (postProcess home away nv N (finalState home away rng N.toNat)) := by
  unfold run_simulations finalState
  rw [runTrials_ok home away nv rng h1 h2 h3 h4 h5 h6 (List.range N.toNat) initState]
  simp [hN]

theorem run_simulations_ok_inv (home away : TeamQ) (nv : Bool)
    (rng : Nat → Nat × Nat) (N : Int) (res : SimResults)
    (h : run_simulations home away N nv rng = Except.ok res) :
    ∃ s, runTrials home away nv rng (List.range N.toNat) initState = Except.ok s ∧
      N ≠ 0 ∧ res = postProcess home away nv N s := by
  unfold run_simulations at h
  cases hr : runTrials home away nv rng (List.range N.toNat) initState with
  | error e => rw [hr] at h; cases h
  | ok s =>
    rw [hr] at h
    replace h : (if N = 0 then Except.error PyErr.zeroDivisionError
        else Except.ok (postProcess home away nv N s)) = Except.ok res := h
    by_cases hN : N = 0
    · rw [if_pos hN] at h; cases h
    · rw [if_neg hN] at h
      exact ⟨s, rfl, hN, (Except.ok.injEq _ _).mp h |>.symm⟩

theorem adf_init_eval (home away : TeamQ) (nv : Bool) :
    simulate_away_defensive_factor (Match.init home away nv) =
      away.defensive_efficiency * (if nv then 1 else 5 / 6) := by
  cases nv <;> norm_num [simulate_away_defensive_factor, Match.init]

theorem hdf_init_eval (home away : TeamQ) (nv : Bool) :
    simulate_home_defensive_factor (Match.init home away nv) =
      home.defensive_efficiency * (if nv then 1 else 6 / 5) := by
  cases nv <;> norm_num [simulate_home_defensive_factor, Match.init]

theorem hxe_init_eval (home away : TeamQ) (nv : Bool) :
    simulate_home_xg_with_efficiency (Match.init home away nv) =
      home.avg_xg_for * (if nv then 1 else 6 / 5) * home.xg_efficiency := by
  cases nv <;> norm_num [simulate_home_xg_with_efficiency, Match.init]

theorem axe_init_eval (home away : TeamQ) (nv : Bool) :
    simulate_away_xg_with_efficiency (Match.init home away nv) =
      away.avg_xg_for * (if nv then 1 else 5 / 6) * away.xg_efficiency := by
  cases nv with
  | false =>
    have he : away.avg_xg_for / (6 / 5 : ℚ) = away.avg_xg_for * (5 / 6) := by
      rw [div_eq_mul_inv]
      norm_num
    norm_num [simulate_away_xg_with_efficiency, Match.init, he]
  | true => norm_num [simulate_away_xg_with_efficiency, Match.init]

theorem hxe_init_pos (home away : TeamQ) (nv : Bool)
    (h1 : 0 < home.avg_xg_for) (h2 : 0 < home.xg_efficiency) :
    0 < simulate_home_xg_with_efficiency (Match.init home away nv) := by
  rw [hxe_init_eval]
  refine mul_pos (mul_pos h1 ?_) h2
  split <;> norm_num

theorem axe_init_pos (home away : TeamQ) (nv : Bool)
    (h4 : 0 < away.avg_xg_for) (h5 : 0 < away.xg_efficiency) :
    0 < simulate_away_xg_with_efficiency (Match.init home away nv) := by
  rw [axe_init_eval]
  refine mul_pos (mul_pos h4 ?_) h5
  split <;> norm_num

/-- The attack-side venue factor applied by `calculate_expected_goals`:
`* 1.2` for the home side, `/ 1.2` (i.e. `* 5/6`) for the away side, none
at a neutral venue. -/
def atkFac ( is_home neutral_venue : Bool) : ℚ :=
  if neutral_venue then 1 else if is_home then 6 / 5 else 5 / 6

/-- The defense-side venue factor applied by `calculate_expected_goals` to
the opponent's defensive efficiency. -/
def defFac ( is_home neutral_venue : Bool) : ℚ :=
  if neutral_venue then 1 else if is_home then 5 / 6 else 6 / 5

theorem atkFac_pos ( is_home neutral_venue : Bool) : 0 < atkFac is_home neutral_venue := by
  cases is_home <;> cases neutral_venue <;> norm_num [atkFac]

theorem defFac_pos ( is_home neutral_venue : Bool) : 0 < defFac is_home neutral_venue := by
  cases is_home <;> cases neutral_venue <;> norm_num [defFac]

theorem calc_formula (t o : TeamQ) ( is_home neutral_venue : Bool) :
    calculate_expected_goals t o is_home neutral_venue =
      t.avg_xg_for * atkFac is_home neutral_venue * t.xg_efficiency /
        (o.defensive_efficiency * defFac is_home neutral_venue) := by
  have h1 : t.avg_xg_for / (6 / 5 : ℚ) = t.avg_xg_for * (5 / 6) := by
    rw [div_eq_mul_inv]; norm_num
  have h2 : o.defensive_efficiency / (6 / 5 : ℚ) = o.defensive_efficiency * (5 / 6) := by
    rw [div_eq_mul_inv]; norm_num
  cases is_home <;> cases neutral_venue <;>
    norm_num [calculate_expected_goals, atkFac, defFac, h1, h2]

/-- Claim C1: for every pair of valid team profiles (all of avgXgFor,
xgEfficiency, defensiveEfficiency strictly positive) and every venue flag,
the expected-goals values computed inline by `Match.simulate` for the home
and away side are numerically identical to
`calculate_expected_goals(home, away, is_home=true, neutral_venue)` and
`calculate_expected_goals(away, home, is_home=false, neutral_venue)`
respectively. -/
theorem claim_C1_expected_goals_paths_agree (home away : TeamQ) (nv : Bool)
    (h1 : 0 < home.avg_xg_for) (h2 : 0 < home.xg_efficiency)
    (h3 : 0 < home.defensive_efficiency)
    (h4 : 0 < away.avg_xg_for) (h5 : 0 < away.xg_efficiency)
    (h6 : 0 < away.defensive_efficiency) :
    simulate_expected_home_goals (Match.init home away nv) =
      calculate_expected_goals home away true nv ∧
    simulate_expected_away_goals (Match.init home away nv) =
      calculate_expected_goals away home false nv := by
  constructor
  · rw [simulate_expected_home_goals, hxe_init_eval, adf_init_eval, calc_formula]
    simp [atkFac, defFac]
  · rw [simulate_expected_away_goals, axe_init_eval, hdf_init_eval, calc_formula]
    simp [atkFac, defFac]

theorem claim_C1_witness :
    simulate_expected_home_goals (Match.init teamA teamB false) =
      calculate_expected_goals teamA teamB true false ∧
    simulate_expected_away_goals (Match.init teamA teamB false) =
      calculate_expected_goals teamB teamA false false :=
  claim_C1_expected_goals_paths_agree teamA teamB false
    (by norm_num [teamA]) (by norm_num [teamA]) (by norm_num [teamA])
    (by norm_num [teamB]) (by norm_num [teamB]) (by norm_num [teamB])

/-- Claim C2: for Team A with avgXgFor=1.8, xgEfficiency=1.0,
defensiveEfficiency=1.0 and an identical Team B, in a non-neutral match
`calculate_expected_goals(A, B, is_home=true, false)` equals 2.592 and
`calculate_expected_goals(B, A, is_home=false, false)` equals 1.25 —
exactly, in the rational model. -/
theorem claim_C2_concrete_expected_goals :
    calculate_expected_goals teamA teamB true false = 2592 / 1000 ∧
    calculate_expected_goals teamB teamA false false = 125 / 100 := by
  constructor <;> norm_num [calculate_expected_goals, teamA, teamB]

/-- Claim C7: holding all other inputs fixed (with xgEfficiency > 0,
opponent defensiveEfficiency > 0, avgXgFor ≥ 0), `calculate_expected_goals`
is monotonically increasing in `team.avgXgFor`, monotonically increasing in
`team.xgEfficiency`, and monotonically decreasing in
`opponent.defensiveEfficiency`, for every choice of is_home and
neutral_venue. -/
theorem claim_C7_monotonicity (t o : TeamQ) ( is_home neutral_venue : Bool)
    (he : 0 < t.xg_efficiency) (hd : 0 < o.defensive_efficiency)
    (ha : 0 ≤ t.avg_xg_for) :
    (∀ a1 a2 : ℚ, 0 ≤ a1 → a1 ≤ a2 →
      calculate_expected_goals { t with avg_xg_for := a1 } o is_home neutral_venue ≤
        calculate_expected_goals { t with avg_xg_for := a2 } o is_home neutral_venue) ∧
    (∀ e1 e2 : ℚ, 0 < e1 → e1 ≤ e2 →
      calculate_expected_goals { t with xg_efficiency := e1 } o is_home neutral_venue ≤
        calculate_expected_goals { t with xg_efficiency := e2 } o is_home neutral_venue) ∧
    (∀ d1 d2 : ℚ, 0 < d1 → d1 ≤ d2 →
      calculate_expected_goals t { o with defensive_efficiency := d2 } is_home neutral_venue ≤
        calculate_expected_goals t { o with defensive_efficiency := d1 } is_home neutral_venue) := by
  have hF := atkFac_pos is_home neutral_venue
  have hG := defFac_pos is_home neutral_venue
  refine ⟨?_, ?_, ?_⟩
  · intro a1 a2 ha1 h12
    rw [calc_formula, calc_formula]
    dsimp only
    have hden : 0 < o.defensive_efficiency * defFac is_home neutral_venue := mul_pos hd hG
    rw [div_le_div_iff_of_pos_right hden]
    exact mul_le_mul_of_nonneg_right (mul_le_mul_of_nonneg_right h12 hF.le) he.le
  · intro e1 e2 he1 h12
    rw [calc_formula, calc_formula]
    dsimp only
    have hden : 0 < o.defensive_efficiency * defFac is_home neutral_venue := mul_pos hd hG
    rw [div_le_div_iff_of_pos_right hden]
    exact mul_le_mul_of_nonneg_left h12 (mul_nonneg ha hF.le)
  · intro d1 d2 hd1 h12
    rw [calc_formula, calc_formula]
    dsimp only
    have hnum : 0 ≤ t.avg_xg_for * atkFac is_home neutral_venue * t.xg_efficiency :=
      mul_nonneg (mul_nonneg ha hF.le) he.le
    have hden1 : 0 < d1 * defFac is_home neutral_venue := mul_pos hd1 hG
    gcongr

theorem claim_C7_witness :
    (calculate_expected_goals { teamA with avg_xg_for := 1 } teamB true false ≤
      calculate_expected_goals { teamA with avg_xg_for := 2 } teamB true false) ∧
    (calculate_expected_goals { teamA with xg_efficiency := 1 } teamB true false ≤
      calculate_expected_goals { teamA with xg_efficiency := 2 } teamB true false) ∧
    (calculate_expected_goals teamA { teamB with defensive_efficiency := 2 } true false ≤
      calculate_expected_goals teamA { teamB with defensive_efficiency := 1 } true false) :=
  ⟨(claim_C7_monotonicity teamA teamB true false (by norm_num [teamA])
      (by norm_num [teamB]) (by norm_num [teamA])).1 1 2 (by norm_num) (by norm_num),
   (claim_C7_monotonicity teamA teamB true false (by norm_num [teamA])
      (by norm_num [teamB]) (by norm_num [teamA])).2.1 1 2 (by norm_num) (by norm_num),
   (claim_C7_monotonicity teamA teamB true false (by norm_num [teamA])
      (by norm_num [teamB]) (by norm_num [teamA])).2.2 1 2 (by norm_num) (by norm_num)⟩

/-- A team profile with `avgXgFor = 0` but strictly positive efficiencies:
it satisfies every validity bound stated in claim C8 (`avgXgFor ≥ 0`,
`xgEfficiency > 0`, `defensiveEfficiency > 0`). -/
def teamZero : TeamQ :=
  { name := "Zero", season := "2024-2025"
    avg_xg_for := 0, avg_xg_against := 1
    xg_efficiency := 1, defensive_efficiency := 1 }

/-- Counterexample to claim C8 as stated: with `avgXgFor = 0` (allowed by
the claim's own `avgXgFor ≥ 0` hypothesis) both the home and the away
expected-goals values are 0, so the home value does not strictly exceed
the away value. -/
theorem claim_C8_counterexample :
    ¬ (calculate_expected_goals teamZero teamZero false false <
        calculate_expected_goals teamZero teamZero true false) := by
  norm_num [calculate_expected_goals, teamZero]

/-- Claim C8, amended: the strict home-advantage inequality holds once
`avgXgFor` is strictly positive (the claim's `avgXgFor ≥ 0` admits the
degenerate 0 case in which both values are 0). -/
theorem claim_C8_amended_home_advantage (t o : TeamQ)
    (ha : 0 < t.avg_xg_for) (he : 0 < t.xg_efficiency)
    (hd : 0 < o.defensive_efficiency) :
    calculate_expected_goals t o false false <
      calculate_expected_goals t o true false := by
  rw [calc_formula, calc_formula]
  simp only [atkFac, defFac, Bool.false_eq_true, if_false, if_true]
  rw [div_lt_div_iff₀ (mul_pos hd (by norm_num)) (mul_pos hd (by norm_num))]
  nlinarith [mul_pos (mul_pos ha he) hd]

theorem claim_C8_witness :
    calculate_expected_goals teamA teamB false false <
      calculate_expected_goals teamA teamB true false :=
  claim_C8_amended_home_advantage teamA teamB
    (by norm_num [teamA]) (by norm_num [teamA]) (by norm_num [teamB])

theorem simulate_ok_played (m : MatchState) (g : Nat × Nat) (m' : MatchState)
    (h : Match.simulate m g = Except.ok m') :
    m' = { m with home_goals := g.1, away_goals := g.2, played := true } := by
  unfold Match.simulate at h
  split at h
  · cases h
  · split at h
    · cases h
    · split at h
      · cases h
      · split at h
        · cases h
        · injection h with h2
          exact h2.symm

theorem get_result_played (m : MatchState) (hp : m.played = true) :
    Match.get_result m = Except.ok
      { home_team := get_display_name m.home_team
        away_team := get_display_name m.away_team
        home_goals := m.home_goals
        away_goals := m.away_goals
        result :=
          if m.home_goals > m.away_goals then "Home Win"
          else if m.away_goals > m.home_goals then "Away Win"
          else "Draw"
        score_line := toString m.home_goals ++ "-" ++ toString m.away_goals } := by
  unfold Match.get_result
  rw [hp]
  simp

theorem result_classify (hg ag : Nat) :
    ((if hg > ag then "Home Win" else if ag > hg then "Away Win" else "Draw") =
        "Home Win" ↔ ag < hg) ∧
    ((if hg > ag then "Home Win" else if ag > hg then "Away Win" else "Draw") =
        "Away Win" ↔ hg < ag) ∧
    ((if hg > ag then "Home Win" else if ag > hg then "Away Win" else "Draw") =
        "Draw" ↔ hg = ag) := by
  rcases Nat.lt_trichotomy hg ag with h | h | h
  · rw [if_neg (by omega), if_pos (by omega : ag > hg)]
    exact ⟨⟨fun hh => absurd hh (by decide), fun hh => ((by omega : False)).elim⟩,
           ⟨fun _ => h, fun _ => rfl⟩,
           ⟨fun hh => absurd hh (by decide), fun hh => ((by omega : False)).elim⟩⟩
  · rw [if_neg (by omega), if_neg (by omega)]
    exact ⟨⟨fun hh => absurd hh (by decide), fun hh => ((by omega : False)).elim⟩,
           ⟨fun hh => absurd hh (by decide), fun hh => ((by omega : False)).elim⟩,
           ⟨fun _ => h, fun _ => rfl⟩⟩
  · rw [if_pos (by omega : hg > ag)]
    exact ⟨⟨fun _ => h, fun _ => rfl⟩,
           ⟨fun hh => absurd hh (by decide), fun hh => ((by omega : False)).elim⟩,
           ⟨fun hh => absurd hh (by decide), fun hh => ((by omega : False)).elim⟩⟩

/-- Claim C10: for every `Match` object, `get_result` before `simulate`
raises `ValueError` (the `played` flag is false on construction); after any
(successful) call to `simulate`, `get_result` succeeds and its `result`
field is `'Home Win'` exactly when home_goals > away_goals, `'Away Win'`
exactly when away_goals > home_goals, and `'Draw'` otherwise. -/
theorem claim_C10_get_result :
    (∀ (home away : TeamQ) (nv : Bool),
      Match.get_result (Match.init home away nv) = Except.error PyErr.valueError) ∧
    (∀ (m : MatchState) (g : Nat × Nat) (m' : MatchState),
      Match.simulate m g = Except.ok m' →
      ∃ r, Match.get_result m' = Except.ok r ∧
        (r.result = "Home Win" ↔ m'.away_goals < m'.home_goals) ∧
        (r.result = "Away Win" ↔ m'.home_goals < m'.away_goals) ∧
        (r.result = "Draw" ↔ m'.home_goals = m'.away_goals)) := by
  constructor
  · intro home away nv
    simp [Match.get_result, Match.init]
  · intro m g m' hsim
    have hm' := simulate_ok_played m g m' hsim
    have hp : m'.played = true := by rw [hm']
    rw [get_result_played m' hp]
    exact ⟨_, rfl, (result_classify m'.home_goals m'.away_goals).1,
      (result_classify m'.home_goals m'.away_goals).2.1,
      (result_classify m'.home_goals m'.away_goals).2.2⟩

theorem claim_C10_witness :
    ∃ r, Match.get_result { Match.init teamA teamB false with
        home_goals := 2, away_goals := 1, played := true } = Except.ok r ∧
      (r.result = "Home Win" ↔
        ({ Match.init teamA teamB false with
           home_goals := 2, away_goals := 1, played := true } : MatchState).away_goals <
        ({ Match.init teamA teamB false with
           home_goals := 2, away_goals := 1, played := true } : MatchState).home_goals) ∧
      (r.result = "Away Win" ↔
        ({ Match.init teamA teamB false with
           home_goals := 2, away_goals := 1, played := true } : MatchState).home_goals <
        ({ Match.init teamA teamB false with
           home_goals := 2, away_goals := 1, played := true } : MatchState).away_goals) ∧
      (r.result = "Draw" ↔
        ({ Match.init teamA teamB false with
           home_goals := 2, away_goals := 1, played := true } : MatchState).home_goals =
        ({ Match.init teamA teamB false with
           home_goals := 2, away_goals := 1, played := true } : MatchState).away_goals) :=
  claim_C10_get_result.2 (Match.init teamA teamB false) (2, 1)
    { Match.init teamA teamB false with home_goals := 2, away_goals := 1, played := true }
    (simulate_init_ok teamA teamB false (2, 1)
      (by norm_num [teamA]) (by norm_num [teamA]) (by norm_num [teamA])
      (by norm_num [teamB]) (by norm_num [teamB]) (by norm_num [teamB]))

/-- The trivial draw oracle used for concrete instances: every trial draws
zero goals for both sides. -/
def rngW : Nat → Nat × Nat := fun _ => (0, 0)

/-- Claim C3: for every pair of valid team profiles, every venue flag and
every `numTrials` N ≥ 1, `run_simulations` returns a result in which
home_wins + away_wins + draws = N, the scoreline counts sum to N, and each
per-side goal-count mapping sums to N — for every possible sequence of
random draws. -/
theorem claim_C3_count_invariants (home away : TeamQ) (nv : Bool)
    (rng : Nat → Nat × Nat) (N : Nat) (hN : 1 ≤ N)
    (h1 : 0 < home.avg_xg_for) (h2 : 0 < home.xg_efficiency)
    (h3 : 0 < home.defensive_efficiency)
    (h4 : 0 < away.avg_xg_for) (h5 : 0 < away.xg_efficiency)
    (h6 : 0 < away.defensive_efficiency) :
    ∃ res, run_simulations home away (N : Int) nv rng = Except.ok res ∧
      res.home_wins + res.away_wins + res.draws = N ∧
      sumVals res.score_counts = N ∧
      sumVals res.home_goal_counts = N ∧
      sumVals res.away_goal_counts = N := by
  have hNe : (N : Int) ≠ 0 := by
    intro hc
    omega
  refine ⟨_, run_simulations_ok_of_valid home away nv rng (N : Int) hNe
    h1.le h2.le h3 h4.le h5.le h6, ?_, ?_, ?_, ?_⟩
  · show wdl (finalState home away rng ((N : Int)).toNat) = N
    rw [finalState, foldl_trialStep_count wdl trialStep_wdl]
    have : wdl initState = 0 := rfl
    rw [this]
    simp
  · show sumVals (finalState home away rng ((N : Int)).toNat).score_counts = N
    rw [finalState,
      foldl_trialStep_count (fun s => sumVals s.score_counts) trialStep_score_counts]
    have : sumVals initState.score_counts = 0 := rfl
    rw [this]
    simp
  · show sumVals (finalState home away rng ((N : Int)).toNat).home_goal_counts = N
    rw [finalState,
      foldl_trialStep_count (fun s => sumVals s.home_goal_counts) trialStep_home_goal_counts]
    have : sumVals initState.home_goal_counts = 0 := rfl
    rw [this]
    simp
  · show sumVals (finalState home away rng ((N : Int)).toNat).away_goal_counts = N
    rw [finalState,
      foldl_trialStep_count (fun s => sumVals s.away_goal_counts) trialStep_away_goal_counts]
    have : sumVals initState.away_goal_counts = 0 := rfl
    rw [this]
    simp

theorem claim_C3_witness :
    ∃ res, run_simulations teamA teamB ((5 : Nat) : Int) true rngW = Except.ok res ∧
      res.home_wins + res.away_wins + res.draws = 5 ∧
      sumVals res.score_counts = 5 ∧
      sumVals res.home_goal_counts = 5 ∧
      sumVals res.away_goal_counts = 5 :=
  claim_C3_count_invariants teamA teamB true rngW 5 (by norm_num)
    (by norm_num [teamA]) (by norm_num [teamA]) (by norm_num [teamA])
    (by norm_num [teamB]) (by norm_num [teamB]) (by norm_num [teamB])

/-- Counterexample to claim C4 as stated: a call with `numTrials = -1`
(which is `< 1`) is not rejected as an error — the trial loop body runs
zero times and a fully-formed result is returned to the caller. -/
theorem claim_C4_counterexample :
    (run_simulations teamA teamB (-1) false rngW).isOk = true := by
  rw [run_simulations_ok_of_valid teamA teamB false rngW (-1) (by norm_num)
    (by norm_num [teamA]) (by norm_num [teamA]) (by norm_num [teamA])
    (by norm_num [teamB]) (by norm_num [teamB]) (by norm_num [teamB])]
  rfl

/-- Claim C4, amended: `run_simulations` performs no validation of
`numTrials`.  For `numTrials < 1` the loop body never runs; then
`numTrials == 0` raises `ZeroDivisionError` only afterwards, at the first
average computation, while `numTrials < 0` returns a result with all-zero
counters instead of any error. -/
theorem claim_C4_amended_no_validation (home away : TeamQ) (nv : Bool)
    (rng : Nat → Nat × Nat) (N : Int) (hN : N < 1) :
    (N = 0 → run_simulations home away N nv rng =
      Except.error PyErr.zeroDivisionError) ∧
    (N < 0 → run_simulations home away N nv rng =
      Except.ok (postProcess home away nv N initState)) := by
  have hrange : List.range N.toNat = [] := by
    have h0 : N.toNat = 0 := by omega
    rw [h0]
    rfl
  constructor
  · intro h0
    unfold run_simulations
    rw [hrange]
    simp [runTrials, h0]
  · intro hneg
    unfold run_simulations
    rw [hrange]
    have hne : ¬ (N = 0) := by omega
    simp [runTrials, hne]

theorem claim_C4_witness :
    ((0 : Int) = 0 → run_simulations teamA teamB 0 false rngW =
      Except.error PyErr.zeroDivisionError) ∧
    ((0 : Int) < 0 → run_simulations teamA teamB 0 false rngW =
      Except.ok (postProcess teamA teamB false 0 initState)) :=
  claim_C4_amended_no_validation teamA teamB false rngW 0 (by norm_num)

/-- A team whose `defensive_efficiency` is 0 — invalid statistical input in
the sense of claim C5 — but with valid attacking statistics. -/
def teamBadDef : TeamQ :=
  { name := "Bad Defense", season := "2024-2025"
    avg_xg_for := 9 / 5, avg_xg_against := 1
    xg_efficiency := 1, defensive_efficiency := 0 }

/-- Counterexample to claim C5 as stated: a call whose home team has
`defensiveEfficiency = 0` together with `numTrials = -1` runs no trial, so
the offending division never executes and a result is returned — the
operation neither fails fast nor fails at all. -/
theorem claim_C5_counterexample :
    (run_simulations teamBadDef teamA (-1) false rngW).isOk = true := by
  unfold run_simulations
  rw [show ((-1 : Int)).toNat = 0 from rfl]
  simp [runTrials]
  rfl

theorem simulate_init_error_of_bad_def (home away : TeamQ) (nv : Bool) (g : Nat × Nat)
    (h1 : 0 < home.avg_xg_for) (h2 : 0 < home.xg_efficiency)
    (h4 : 0 < away.avg_xg_for) (h5 : 0 < away.xg_efficiency)
    (hbad : away.defensive_efficiency ≤ 0 ∨ home.defensive_efficiency ≤ 0) :
    ∃ e, Match.simulate (Match.init home away nv) g = Except.error e := by
  by_cases hadf0 : simulate_away_defensive_factor (Match.init home away nv) = 0
  · exact ⟨_, by unfold Match.simulate; rw [if_pos hadf0]⟩
  by_cases hhdf0 : simulate_home_defensive_factor (Match.init home away nv) = 0
  · exact ⟨_, by unfold Match.simulate; rw [if_neg hadf0, if_pos hhdf0]⟩
  rcases hbad with hb | hb
  · have hde : away.defensive_efficiency < 0 := by
      rcases lt_or_eq_of_le hb with h | h
      · exact h
      · exfalso
        apply hadf0
        rw [adf_init_eval, h]
        ring
    have hadf_neg : simulate_away_defensive_factor (Match.init home away nv) < 0 := by
      rw [adf_init_eval]
      exact mul_neg_of_neg_of_pos hde (by split <;> norm_num)
    have hehg_neg : simulate_expected_home_goals (Match.init home away nv) < 0 :=
      div_neg_of_pos_of_neg (hxe_init_pos home away nv h1 h2) hadf_neg
    exact ⟨_, by
      unfold Match.simulate
      rw [if_neg hadf0, if_neg hhdf0, if_pos hehg_neg]⟩
  · by_cases hehg : simulate_expected_home_goals (Match.init home away nv) < 0
    · exact ⟨_, by
        unfold Match.simulate
        rw [if_neg hadf0, if_neg hhdf0, if_pos hehg]⟩
    · have hde : home.defensive_efficiency < 0 := by
        rcases lt_or_eq_of_le hb with h | h
        · exact h
        · exfalso
          apply hhdf0
          rw [hdf_init_eval, h]
          ring
      have hhdf_neg : simulate_home_defensive_factor (Match.init home away nv) < 0 := by
        rw [hdf_init_eval]
        exact mul_neg_of_neg_of_pos hde (by split <;> norm_num)
      have heag_neg : simulate_expected_away_goals (Match.init home away nv) < 0 :=
        div_neg_of_pos_of_neg (axe_init_pos home away nv h4 h5) hhdf_neg
      exact ⟨_, by
        unfold Match.simulate
        rw [if_neg hadf0, if_neg hhdf0, if_neg hehg, if_pos heag_neg]⟩

theorem runTrials_error_head (home away : TeamQ) (nv : Bool)
    (rng : Nat → Nat × Nat) (i : Nat) (rest : List Nat) (s : LoopState) (e : PyErr)
    (h : Match.simulate (Match.init home away nv) (rng i) = Except.error e) :
    runTrials home away nv rng (i :: rest) s = Except.error e := by
  rw [runTrials, h]

/-- Claim C5, amended: `run_simulations` performs no validation before the
loop.  When `numTrials ≥ 1` and either team's `defensiveEfficiency ≤ 0`
(the attacking statistics being valid), the error surfaces inside the
first trial — `ZeroDivisionError` when the effective defensive factor is
zero, `ValueError` from the negative Poisson mean otherwise — and the
exception propagates, so no result (partial or otherwise) is returned.
When `numTrials < 1`, no trial runs and no such error is raised at all
(see the counterexample). -/
theorem claim_C5_amended_first_trial_error (home away : TeamQ) (nv : Bool)
    (rng : Nat → Nat × Nat) (N : Int) (hN : 1 ≤ N)
    (h1 : 0 < home.avg_xg_for) (h2 : 0 < home.xg_efficiency)
    (h4 : 0 < away.avg_xg_for) (h5 : 0 < away.xg_efficiency)
    (hbad : away.defensive_efficiency ≤ 0 ∨ home.defensive_efficiency ≤ 0) :
    (run_simulations home away N nv rng).isOk = false := by
  obtain ⟨k, hk⟩ : ∃ k, N.toNat = k + 1 := ⟨N.toNat - 1, by omega⟩
  obtain ⟨e, he⟩ := simulate_init_error_of_bad_def home away nv (rng 0) h1 h2 h4 h5 hbad
  unfold run_simulations
  rw [hk, List.range_succ_eq_map,
    runTrials_error_head home away nv rng 0 (List.map Nat.succ (List.range k)) initState e he]
  rfl

theorem claim_C5_witness :
    (run_simulations teamA teamBadDef 1 false rngW).isOk = false :=
  claim_C5_amended_first_trial_error teamA teamBadDef false rngW 1 (by norm_num)
    (by norm_num [teamA]) (by norm_num [teamA])
    (by norm_num [teamBadDef]) (by norm_num [teamBadDef])
    (Or.inl (by norm_num [teamBadDef]))

/-- Counterexample to claim C6 as stated: a negative home goal count is not
rejected as an error — `scipy.stats.poisson.pmf` returns probability 0 for
points outside the support, so `predict_score_probability` returns the
numeric value 0.0. -/
theorem claim_C6_counterexample :
    predict_score_probability teamA teamB (-1) 0 false = 0 := by
  simp [predict_score_probability, poisson_pmf]

/-- Claim C6, amended: `predict_score_probability` does not raise on a
negative goal count; it returns the numeric probability 0 (the Poisson pmf
of a point outside the support), for either side being negative. -/
theorem claim_C6_amended_returns_zero (home_team away_team : TeamQ)
    (hg ag : Int) (nv : Bool) (h : hg < 0 ∨ ag < 0) :
    predict_score_probability home_team away_team hg ag nv = 0 := by
  rcases h with h | h
  · simp [predict_score_probability, poisson_pmf, h]
  · simp [predict_score_probability, poisson_pmf, h]

theorem claim_C6_witness :
    predict_score_probability teamA teamB 0 (-1) false = 0 :=
  claim_C6_amended_returns_zero teamA teamB 0 (-1) false (Or.inr (by norm_num))

/-- Claim C9: for every run of `run_simulations` with numTrials ≥ 1 that
returns a result, `most_common_scores` is the first ten entries of the
stable descending-by-count sort of the scoreline-count entries: the sorted
list is a permutation of the entries, pairwise sorted by descending count,
tie groups keep first-encountered (insertion) order, and all entries are
retained whenever fewer than ten distinct scorelines occurred. -/
theorem claim_C9_most_common_scores (home away : TeamQ) (nv : Bool)
    (rng : Nat → Nat × Nat) (N : Int) (hN : 1 ≤ N) (res : SimResults)
    (hrun : run_simulations home away N nv rng = Except.ok res) :
    res.most_common_scores =
      (sortByCountDesc (res.score_counts.map
        (fun kv => (kv.1, kv.2, (kv.2 : ℚ) / (N : ℚ))))).take 10 ∧
    List.Pairwise keyGe (sortByCountDesc (res.score_counts.map
      (fun kv => (kv.1, kv.2, (kv.2 : ℚ) / (N : ℚ))))) ∧
    List.Perm (sortByCountDesc (res.score_counts.map
        (fun kv => (kv.1, kv.2, (kv.2 : ℚ) / (N : ℚ)))))
      (res.score_counts.map (fun kv => (kv.1, kv.2, (kv.2 : ℚ) / (N : ℚ)))) ∧
    (∀ c : Nat, (sortByCountDesc (res.score_counts.map
        (fun kv => (kv.1, kv.2, (kv.2 : ℚ) / (N : ℚ))))).filter
          (fun y => y.2.1 == c) =
      (res.score_counts.map (fun kv => (kv.1, kv.2, (kv.2 : ℚ) / (N : ℚ)))).filter
        (fun y => y.2.1 == c)) ∧
    res.most_common_scores.length = min 10 res.score_counts.length ∧
    (res.score_counts.length ≤ 10 →
      res.most_common_scores = sortByCountDesc (res.score_counts.map
        (fun kv => (kv.1, kv.2, (kv.2 : ℚ) / (N : ℚ))))) := by
  obtain ⟨s, hs, hN0, hres⟩ := run_simulations_ok_inv home away nv rng N res hrun
  subst hres
  refine ⟨rfl, sortByCountDesc_pairwise _, sortByCountDesc_perm _,
    fun c => filter_sortByCountDesc c _, ?_, ?_⟩
  · show ((sortByCountDesc _).take 10).length = _
    rw [List.length_take, (sortByCountDesc_perm _).length_eq, List.length_map]
    rfl
  · intro hle
    show (sortByCountDesc _).take 10 = sortByCountDesc _
    apply List.take_of_length_le
    rw [(sortByCountDesc_perm _).length_eq, List.length_map]
    exact hle

/-- A concrete simulation result used to instantiate claim C9: three
trials of `teamA` vs `teamB` at a neutral venue with the all-zeros draw
oracle. -/
def demoRes : SimResults :=
  postProcess teamA teamB true 3 (finalState teamA teamB rngW ((3 : Int)).toNat)

theorem claim_C9_witness :
    demoRes.most_common_scores =
      (sortByCountDesc (demoRes.score_counts.map
        (fun kv => (kv.1, kv.2, (kv.2 : ℚ) / ((3 : Int) : ℚ))))).take 10 ∧
    List.Pairwise keyGe (sortByCountDesc (demoRes.score_counts.map
      (fun kv => (kv.1, kv.2, (kv.2 : ℚ) / ((3 : Int) : ℚ))))) ∧
    List.Perm (sortByCountDesc (demoRes.score_counts.map
        (fun kv => (kv.1, kv.2, (kv.2 : ℚ) / ((3 : Int) : ℚ)))))
      (demoRes.score_counts.map (fun kv => (kv.1, kv.2, (kv.2 : ℚ) / ((3 : Int) : ℚ)))) ∧
    (∀ c : Nat, (sortByCountDesc (demoRes.score_counts.map
        (fun kv => (kv.1, kv.2, (kv.2 : ℚ) / ((3 : Int) : ℚ))))).filter
          (fun y => y.2.1 == c) =
      (demoRes.score_counts.map (fun kv => (kv.1, kv.2, (kv.2 : ℚ) / ((3 : Int) : ℚ)))).filter
        (fun y => y.2.1 == c)) ∧
    demoRes.most_common_scores.length = min 10 demoRes.score_counts.length ∧
    (demoRes.score_counts.length ≤ 10 →
      demoRes.most_common_scores = sortByCountDesc (demoRes.score_counts.map
        (fun kv => (kv.1, kv.2, (kv.2 : ℚ) / ((3 : Int) : ℚ))))) :=
  claim_C9_most_common_scores teamA teamB true rngW 3 (by norm_num) demoRes
    (by
      unfold demoRes
      exact run_simulations_ok_of_valid teamA teamB true rngW 3 (by norm_num)
        (by norm_num [teamA]) (by norm_num [teamA]) (by norm_num [teamA])
        (by norm_num [teamB]) (by norm_num [teamB]) (by norm_num [teamB]))
